import Mathlib

/-!
Verification of the per-call session relay of the Marta phone-intake agent.

The repository consists of several variants of one relay script.  Each
variant wires an inbound telephony media WebSocket to an outbound realtime
model WebSocket, accumulates a transcript, and on stream stop extracts a
service ticket and dispatches an SMS.  The development below embeds the
handlers of the variants cited by the claims:

* `Part000` — the variant with the `greeted`/`sessionReady` readiness gate
  (`markReady`, `startGreetingIfReady`), the 1000 ms fallback timer, and the
  `buildSmsFromTranscript` finalization;
* `P002B` — the variant with `trySendGreeting` and the json-schema extractor;
* `P002A` — the variant that buffers model audio in `pendingAudio` and
  flushes it on stream start (`sendAudioToTwilio` / `flushPendingAudio`);
* `ServerV1` — the first variant of `server.js` (greeting sent directly on
  open, audio deltas dropped without `streamSid`, fallback SMS sliced to
  1500 characters);
* `ServerV3` — the third variant of `server.js`, whose extractor swallows
  JSON-parse failures;
* `Part3` — the variant whose extractor short-circuits empty transcripts.

Network and JSON-parsing effects are passed in as explicit inputs
(`respOk`, parse results as `Option`), so every definition is executable.
-/

/-- Model of JavaScript `String.prototype.trim`: drop whitespace from both
ends of the character sequence. -/
def trimJs (s : String) : String :=
  ⟨((s.data.dropWhile Char.isWhitespace).reverse.dropWhile Char.isWhitespace).reverse⟩

/-- Model of JavaScript `s.slice(0, n)`: the first `n` characters. -/
def sliceTo (s : String) (n : Nat) : String :=
  ⟨s.data.take n⟩

/-- Model of JavaScript `s.slice(-n)`: the last `n` characters. -/
def sliceLast (s : String) (n : Nat) : String :=
  ⟨s.data.drop (s.data.length - n)⟩

/-- Model of the JavaScript idiom `x || "-"` on strings. -/
def orDash (s : String) : String :=
  if s = "" then "-" else s

/-- Model of JavaScript `Array.prototype.join("\n")`. -/
def joinLines : List String → String
  | [] => ""
  | [x] => x
  | x :: xs => x ++ "\n" ++ joinLines xs

/-- Model of the JavaScript idiom `lines.filter(Boolean).join("\n")` used by
every SMS formatter in the repository. -/
def joinFiltered (l : List String) : String :=
  joinLines (l.filter (fun x => x != ""))

/-- The structured service ticket produced by the extraction step.  All
fields are strings, as in the JSON object the extractors parse. -/
structure Ticket where
  nombre : String := ""
  telefono : String := ""
  direccion : String := ""
  zona : String := ""
  servicio : String := ""
  averia : String := ""
  urgente : String := ""
  aceptoNocturno : String := ""
  notas : String := ""
deriving DecidableEq, Repr

/-- `newTicket()` of the `part_003` variant: the empty ticket with
`aceptoNocturno` defaulted to `"n-a"`. -/
def newTicket : Ticket :=
  { aceptoNocturno := "n-a" }

/-- The part of an extraction HTTP response body the code reads after
`resp.json()` succeeds: the `output_text` field. -/
structure RespBody where
  output_text : String := ""
deriving DecidableEq, Repr

/-- Observable actions a session handler can emit: the `session.update`
configuration message, the `response.create` greeting instruction, a media
frame to the caller tagged with a stream id, an `input_audio_buffer.append`
message to the model, and a proactive close of the inbound connection. -/
inductive Output where
  | sessionUpdate
  | greet
  | mediaToTwilio (streamSid payload : String)
  | inputAudioAppend (payload : String)
  | closeTwilio
deriving DecidableEq, Repr

/-- Recognizer for the greeting instruction among emitted outputs. -/
def isGreet : Output → Bool
  | .greet => true
  | _ => false

/-- Recognizer for the action of closing the inbound connection. -/
def isCloseTwilio : Output → Bool
  | .closeTwilio => true
  | _ => false

/-- A media frame directed at the caller always carries a nonempty stream
id; every other output is unconstrained. -/
def mediaHasSid : Output → Prop
  | .mediaToTwilio sid _ => sid ≠ ""
  | _ => True

/-- Run a session step function over a list of incoming events, collecting
the emitted outputs in order. -/
def runWith {σ ε : Type} (step : σ → ε → σ × List Output) :
    σ → List ε → σ × List Output
  | s, [] => (s, [])
  | s, e :: es =>
    ((runWith step (step s e).1 es).1,
      (step s e).2 ++ (runWith step (step s e).1 es).2)

theorem runWith_nil {σ ε : Type} (step : σ → ε → σ × List Output) (s : σ) :
    runWith step s [] = (s, []) := rfl

theorem runWith_cons {σ ε : Type} (step : σ → ε → σ × List Output)
    (s : σ) (e : ε) (es : List ε) :
    runWith step s (e :: es) =
      ((runWith step (step s e).1 es).1,
        (step s e).2 ++ (runWith step (step s e).1 es).2) := rfl

theorem runWith_append {σ ε : Type} (step : σ → ε → σ × List Output)
    (s : σ) (xs ys : List ε) :
    runWith step s (xs ++ ys) =
      ((runWith step (runWith step s xs).1 ys).1,
        (runWith step s xs).2 ++ (runWith step (runWith step s xs).1 ys).2) := by
  induction xs generalizing s with
  | nil => simp [runWith_nil, runWith_cons]
  | cons e es ih => simp [runWith_cons, ih, List.append_assoc]

/-- Interpret a `Bool` flag as `0` or `1` greetings already sent. -/
def boolNat (b : Bool) : Nat :=
  if b then 1 else 0

theorem boolNat_le_one (b : Bool) : boolNat b ≤ 1 := by
  cases b <;> simp [boolNat]

/-- Generic once-only argument: if every single step emits at most the
difference of a monotone Boolean flag in greetings, then a whole run emits
at most that difference. -/
theorem runWith_greet_le {σ ε : Type} (step : σ → ε → σ × List Output)
    (flag : σ → Bool)
    (h : ∀ s e, ((step s e).2.countP isGreet) + boolNat (flag s)
      ≤ boolNat (flag (step s e).1)) :
    ∀ (es : List ε) (s : σ),
      ((runWith step s es).2.countP isGreet) + boolNat (flag s)
        ≤ boolNat (flag (runWith step s es).1) := by
  intro es
  induction es with
  | nil => intro s; simp [runWith_nil]
  | cons e rest ih =>
    intro s
    have h₁ := h s e
    have h₂ := ih (step s e).1
    simp only [runWith_cons, List.countP_append]
    omega

namespace Part000

/-- Per-call closure state of the `part_000` variant: `streamSid`, `callSid`
and `fromNumber` from the telephony start event, the accumulated transcript,
the `greeted` / `sessionReady` / `openaiConnected` flags, and whether the
model WebSocket is currently in the OPEN state. -/
structure State where
  streamSid : String := ""
  callSid : String := ""
  fromNumber : String := ""
  transcript : String := ""
  greeted : Bool := false
  sessionReady : Bool := false
  openaiConnected : Bool := false
  openaiOpen : Bool := false
deriving DecidableEq, Repr

/-- Initial closure state when the inbound connection is accepted. -/
def init : State := {}

/-- Messages arriving on the model WebSocket that the handler inspects. -/
inductive OAMsg where
  | sessionCreated
  | sessionUpdated
  | audioDelta (delta : String)
  | transcriptionCompleted (text : String)
  | errorEvent
deriving DecidableEq, Repr

/-- Incoming asynchronous events of a `part_000` session: model socket
open/close, a parsed model message, the 1000 ms readiness fallback timer,
and the telephony `start` / `media` events. -/
inductive Event where
  | oaOpen
  | fallbackTimer
  | oaMessage (m : OAMsg)
  | oaClose
  | twStart (streamSid callSid fromNumber : String)
  | twMedia (payload : String)
deriving DecidableEq, Repr

/-- `startGreetingIfReady` of `part_000`: send the greeting instruction only
if it has not been sent, the stream id is known, the model socket is OPEN
and the session is ready; sets `greeted` exactly when it sends. -/
def startGreetingIfReady (s : State) : State × List Output :=
  if s.greeted then (s, [])
  else if s.streamSid = "" then (s, [])
  else if !s.openaiOpen then (s, [])
  else if !s.sessionReady then (s, [])
  else ({ s with greeted := true }, [Output.greet])

/-- `markReady` of `part_000`: set `sessionReady` once and retry the
greeting. -/
def markReady (s : State) : State × List Output :=
  if s.sessionReady then (s, [])
  else startGreetingIfReady { s with sessionReady := true }

/-- One event-handler dispatch of the `part_000` session. -/
def step (s : State) : Event → State × List Output
  | .oaOpen =>
    ({ s with openaiConnected := true, openaiOpen := true },
      [Output.sessionUpdate])
  | .fallbackTimer =>
    if !s.sessionReady && s.openaiConnected then markReady s else (s, [])
  | .oaMessage .sessionCreated => markReady s
  | .oaMessage .sessionUpdated => markReady s
  | .oaMessage (.audioDelta d) =>
    if s.streamSid = "" then (s, [])
    else (s, [Output.mediaToTwilio s.streamSid d])
  | .oaMessage (.transcriptionCompleted t) =>
    if trimJs t = "" then (s, [])
    else ({ s with transcript := s.transcript ++ "CLIENTE: " ++ trimJs t ++ "\n" }, [])
  | .oaMessage .errorEvent => (s, [])
  | .oaClose => ({ s with openaiOpen := false }, [])
  | .twStart sid cid fromN =>
    startGreetingIfReady { s with streamSid := sid, callSid := cid, fromNumber := fromN }
  | .twMedia payload =>
    if s.openaiOpen then (s, [Output.inputAudioAppend payload]) else (s, [])

/-- Process a whole list of events from a given state. -/
def run : State → List Event → State × List Output := runWith step

theorem startGreetingIfReady_greet (s : State) :
    ((startGreetingIfReady s).2.countP isGreet) + boolNat s.greeted
      ≤ boolNat (startGreetingIfReady s).1.greeted := by
  unfold startGreetingIfReady
  split_ifs with h1 h2 h3 h4 <;>
    simp_all [boolNat, isGreet, List.countP_cons, List.countP_nil]

theorem markReady_greet (s : State) :
    ((markReady s).2.countP isGreet) + boolNat s.greeted
      ≤ boolNat (markReady s).1.greeted := by
  unfold markReady
  split_ifs with h1
  · simp
  · exact startGreetingIfReady_greet { s with sessionReady := true }

theorem step_greet (s : State) (e : Event) :
    ((step s e).2.countP isGreet) + boolNat s.greeted
      ≤ boolNat (step s e).1.greeted := by
  cases e with
  | oaOpen => simp [step, isGreet, List.countP_cons, List.countP_nil]
  | fallbackTimer =>
    simp only [step]
    split_ifs with h
    · exact markReady_greet s
    · simp
  | oaMessage m =>
    cases m with
    | sessionCreated => exact markReady_greet s
    | sessionUpdated => exact markReady_greet s
    | audioDelta d =>
      simp only [step]
      split_ifs <;> simp [isGreet, List.countP_cons, List.countP_nil]
    | transcriptionCompleted t =>
      simp only [step]
      split_ifs <;> simp
    | errorEvent => simp [step]
  | oaClose => simp [step]
  | twStart sid cid fromN =>
    have h := startGreetingIfReady_greet
      { s with streamSid := sid, callSid := cid, fromNumber := fromN }
    simpa [step] using h
  | twMedia payload =>
    simp only [step]
    split_ifs <;> simp [isGreet, List.countP_cons, List.countP_nil]

end Part000

namespace P002B

/-- Per-call closure state of the variant with `trySendGreeting`: the
`openaiReady` flag is set when the model socket opens, `greeted` gates the
single greeting. -/
structure State where
  streamSid : String := ""
  callSid : String := ""
  fromNumber : String := ""
  transcript : String := ""
  openaiReady : Bool := false
  greeted : Bool := false
  openaiOpen : Bool := false
deriving DecidableEq, Repr

/-- Initial closure state. -/
def init : State := {}

/-- Incoming asynchronous events of this variant's session. -/
inductive Event where
  | oaOpen
  | oaAudioDelta (delta : String)
  | oaTranscription (text : String)
  | oaClose
  | twStart (streamSid callSid fromNumber : String)
  | twMedia (payload : String)
deriving DecidableEq, Repr

/-- `trySendGreeting`: send the greeting only if not yet greeted, the model
session is ready, the stream id is known and the model socket is OPEN. -/
def trySendGreeting (s : State) : State × List Output :=
  if s.greeted then (s, [])
  else if !s.openaiReady then (s, [])
  else if s.streamSid = "" then (s, [])
  else if !s.openaiOpen then (s, [])
  else ({ s with greeted := true }, [Output.greet])

/-- One event-handler dispatch of this variant.  On open the handler sends
the session configuration, sets `openaiReady` and immediately tries to
greet; on telephony start it records the ids and tries to greet again. -/
def step (s : State) : Event → State × List Output
  | .oaOpen =>
    ((trySendGreeting { s with openaiOpen := true, openaiReady := true }).1,
      Output.sessionUpdate ::
        (trySendGreeting { s with openaiOpen := true, openaiReady := true }).2)
  | .oaAudioDelta d =>
    if s.streamSid = "" then (s, [])
    else (s, [Output.mediaToTwilio s.streamSid d])
  | .oaTranscription t =>
    if trimJs t = "" then (s, [])
    else ({ s with transcript := s.transcript ++ "\nCLIENTE: " ++ trimJs t }, [])
  | .oaClose => ({ s with openaiOpen := false }, [Output.closeTwilio])
  | .twStart sid cid fromN =>
    trySendGreeting { s with callSid := cid, streamSid := sid, fromNumber := fromN }
  | .twMedia payload =>
    if s.openaiOpen then (s, [Output.inputAudioAppend payload]) else (s, [])

/-- Process a whole list of events from a given state. -/
def run : State → List Event → State × List Output := runWith step

theorem trySendGreeting_greet (s : State) :
    ((trySendGreeting s).2.countP isGreet) + boolNat s.greeted
      ≤ boolNat (trySendGreeting s).1.greeted := by
  unfold trySendGreeting
  split_ifs with h1 h2 h3 h4 <;>
    simp_all [boolNat, isGreet, List.countP_cons, List.countP_nil]

theorem step_greet_variant (s : State) (e : Event) :
    ((step s e).2.countP isGreet) + boolNat s.greeted
      ≤ boolNat (step s e).1.greeted := by
  cases e with
  | oaOpen =>
    have h := trySendGreeting_greet { s with openaiOpen := true, openaiReady := true }
    simp only [step, List.countP_cons, isGreet]
    simpa using h
  | oaAudioDelta d =>
    simp only [step]
    split_ifs <;> simp [isGreet, List.countP_cons, List.countP_nil]
  | oaTranscription t =>
    simp only [step]
    split_ifs <;> simp
  | oaClose => simp [step, isGreet, List.countP_cons, List.countP_nil]
  | twStart sid cid fromN =>
    exact trySendGreeting_greet
      { s with callSid := cid, streamSid := sid, fromNumber := fromN }
  | twMedia payload =>
    simp only [step]
    split_ifs <;> simp [isGreet, List.countP_cons, List.countP_nil]

end P002B

/-- Claim C1: over any sequence of incoming events (readiness messages,
fallback-timer firings, telephony start events, in any order and
multiplicity) a call session sends the greeting instruction at most once,
both in the `part_000` variant (`startGreetingIfReady`) and in the
`trySendGreeting` variant. -/
theorem greeting_sent_at_most_once :
    (∀ es : List Part000.Event,
      ((Part000.run Part000.init es).2.countP isGreet) ≤ 1) ∧
    (∀ es : List P002B.Event,
      ((P002B.run P002B.init es).2.countP isGreet) ≤ 1) := by
  constructor
  · intro es
    have h := runWith_greet_le Part000.step (fun s => s.greeted)
      Part000.step_greet es Part000.init
    have hb := boolNat_le_one ((runWith Part000.step Part000.init es).1.greeted)
    simp only [Part000.run, Part000.init, boolNat] at h hb ⊢
    omega
  · intro es
    have h := runWith_greet_le P002B.step (fun s => s.greeted)
      P002B.step_greet_variant es P002B.init
    have hb := boolNat_le_one ((runWith P002B.step P002B.init es).1.greeted)
    simp only [P002B.run, P002B.init, boolNat] at h hb ⊢
    omega

namespace Part000

theorem startGreetingIfReady_mem_greet (s : State)
    (h : Output.greet ∈ (startGreetingIfReady s).2) :
    (startGreetingIfReady s).1.sessionReady = true ∧
      (startGreetingIfReady s).1.streamSid ≠ "" ∧
      (startGreetingIfReady s).1.openaiOpen = true := by
  unfold startGreetingIfReady at *
  split_ifs at h with h1 h2 h3 h4 <;> simp_all

theorem markReady_mem_greet (s : State)
    (h : Output.greet ∈ (markReady s).2) :
    (markReady s).1.sessionReady = true ∧
      (markReady s).1.streamSid ≠ "" ∧
      (markReady s).1.openaiOpen = true := by
  unfold markReady at h ⊢
  split_ifs at h ⊢ with h1
  · simp at h
  · exact startGreetingIfReady_mem_greet _ h

theorem step_mem_greet (s : State) (e : Event)
    (h : Output.greet ∈ (step s e).2) :
    (step s e).1.sessionReady = true ∧
      (step s e).1.streamSid ≠ "" ∧
      (step s e).1.openaiOpen = true := by
  cases e with
  | oaOpen => simp [step] at h
  | fallbackTimer =>
    simp only [step] at h ⊢
    split_ifs at h ⊢ with h1
    · exact markReady_mem_greet _ h
    · simp at h
  | oaMessage m =>
    cases m with
    | sessionCreated => exact markReady_mem_greet _ h
    | sessionUpdated => exact markReady_mem_greet _ h
    | audioDelta d =>
      simp only [step] at *
      split_ifs at h <;> simp_all
    | transcriptionCompleted t =>
      simp only [step] at *
      split_ifs at h <;> simp_all
    | errorEvent => simp [step] at h
  | oaClose => simp [step] at h
  | twStart sid cid fromN =>
    exact startGreetingIfReady_mem_greet _ h
  | twMedia p =>
    simp only [step] at *
    split_ifs at h <;> simp_all

/-- Events that touch neither the readiness flags nor the greeting: model
audio deltas, transcription results, model error payloads and caller media
frames. -/
def neutral : Event → Bool
  | .oaMessage (.audioDelta _) => true
  | .oaMessage (.transcriptionCompleted _) => true
  | .oaMessage .errorEvent => true
  | .twMedia _ => true
  | _ => false

theorem neutral_step (s : State) (e : Event) (h : neutral e = true) :
    (step s e).1.greeted = s.greeted ∧
      (step s e).1.sessionReady = s.sessionReady ∧
      (step s e).1.streamSid = s.streamSid ∧
      (step s e).1.openaiConnected = s.openaiConnected ∧
      (step s e).1.openaiOpen = s.openaiOpen ∧
      (step s e).2.countP isGreet = 0 := by
  cases e with
  | oaOpen => simp [neutral] at h
  | fallbackTimer => simp [neutral] at h
  | oaClose => simp [neutral] at h
  | twStart a b c => simp [neutral] at h
  | oaMessage m =>
    cases m with
    | sessionCreated => simp [neutral] at h
    | sessionUpdated => simp [neutral] at h
    | audioDelta d =>
      simp only [step]
      split_ifs <;> simp [isGreet, List.countP_cons, List.countP_nil]
    | transcriptionCompleted t =>
      simp only [step]
      split_ifs <;> simp [isGreet, List.countP_nil]
    | errorEvent => simp [step]
  | twMedia p =>
    simp only [step]
    split_ifs <;> simp [isGreet, List.countP_cons, List.countP_nil]

theorem run_neutral (es : List Event) (h : ∀ e ∈ es, neutral e = true) :
    ∀ s : State,
      (run s es).1.greeted = s.greeted ∧
      (run s es).1.sessionReady = s.sessionReady ∧
      (run s es).1.streamSid = s.streamSid ∧
      (run s es).1.openaiConnected = s.openaiConnected ∧
      (run s es).1.openaiOpen = s.openaiOpen ∧
      (run s es).2.countP isGreet = 0 := by
  induction es with
  | nil => intro s; simp [run, runWith_nil]
  | cons e rest ih =>
    intro s
    have he : neutral e = true := h e (List.mem_cons_self e rest)
    have hrest : ∀ x ∈ rest, neutral x = true :=
      fun x hx => h x (List.mem_cons_of_mem e hx)
    obtain ⟨a1, a2, a3, a4, a5, a6⟩ := neutral_step s e he
    obtain ⟨b1, b2, b3, b4, b5, b6⟩ := ih hrest (step s e).1
    simp only [run] at b1 b2 b3 b4 b5 b6
    simp only [run, runWith_cons, List.countP_append]
    exact ⟨b1.trans a1, b2.trans a2, b3.trans a3, b4.trans a4, b5.trans a5,
      by omega⟩

end Part000

/-- Claim C2: the `part_000` greeting is emitted only when, afterwards, both
readiness conditions hold (session ready, stream id known, and the model
socket open), and processing the model-ready message and the telephony start
event in either order each leads to exactly one greeting. -/
theorem greeting_requires_both_and_commutes :
    (∀ (s : Part000.State) (e : Part000.Event),
      Output.greet ∈ (Part000.step s e).2 →
        (Part000.step s e).1.sessionReady = true ∧
        (Part000.step s e).1.streamSid ≠ "" ∧
        (Part000.step s e).1.openaiOpen = true) ∧
    (∀ sid cid fromN : String, sid ≠ "" →
      ((Part000.run Part000.init
          [Part000.Event.oaOpen, Part000.Event.oaMessage Part000.OAMsg.sessionUpdated,
            Part000.Event.twStart sid cid fromN]).2.countP isGreet = 1 ∧
        (Part000.run Part000.init
          [Part000.Event.oaOpen, Part000.Event.twStart sid cid fromN,
            Part000.Event.oaMessage Part000.OAMsg.sessionUpdated]).2.countP isGreet = 1)) := by
  refine ⟨Part000.step_mem_greet, fun sid cid fromN hsid => ⟨?_, ?_⟩⟩ <;>
    simp [Part000.run, runWith, Part000.step, Part000.markReady,
      Part000.startGreetingIfReady, Part000.init, hsid, isGreet,
      List.countP_cons, List.countP_nil]

/-- Witness for claim C2 at a concrete session: a ready message arriving at
a state that already has a stream id triggers the greeting with both
conditions true afterwards, and both arrival orders of the two readiness
events produce exactly one greeting for stream id `SS1`. -/
theorem greeting_requires_both_and_commutes_witness :
    (Output.greet ∈ (Part000.step
        { streamSid := "SS1", openaiOpen := true }
        (Part000.Event.oaMessage Part000.OAMsg.sessionUpdated)).2 →
      (Part000.step { streamSid := "SS1", openaiOpen := true }
        (Part000.Event.oaMessage Part000.OAMsg.sessionUpdated)).1.sessionReady = true ∧
      (Part000.step { streamSid := "SS1", openaiOpen := true }
        (Part000.Event.oaMessage Part000.OAMsg.sessionUpdated)).1.streamSid ≠ "" ∧
      (Part000.step { streamSid := "SS1", openaiOpen := true }
        (Part000.Event.oaMessage Part000.OAMsg.sessionUpdated)).1.openaiOpen = true) ∧
    ((Part000.run Part000.init
        [Part000.Event.oaOpen, Part000.Event.oaMessage Part000.OAMsg.sessionUpdated,
          Part000.Event.twStart "SS1" "CA1" "+34600111222"]).2.countP isGreet = 1 ∧
      (Part000.run Part000.init
        [Part000.Event.oaOpen, Part000.Event.twStart "SS1" "CA1" "+34600111222",
          Part000.Event.oaMessage Part000.OAMsg.sessionUpdated]).2.countP isGreet = 1) :=
  ⟨greeting_requires_both_and_commutes.1 _ _,
    greeting_requires_both_and_commutes.2 "SS1" "CA1" "+34600111222" (by decide)⟩

namespace Part000

theorem aux_fallback_tail (s : State) (hg : s.greeted = false)
    (hr : s.sessionReady = false) (hc : s.openaiConnected = true)
    (ho : s.openaiOpen = true) (hs : s.streamSid ≠ "")
    (n2 n3 : List Event)
    (h2 : ∀ e ∈ n2, neutral e = true) (h3 : ∀ e ∈ n3, neutral e = true) :
    ((run s (n2 ++ (Event.fallbackTimer :: n3))).2.countP isGreet) = 1 := by
  obtain ⟨g4, r4, e4, c4, o4, cnt4⟩ := run_neutral n2 h2 s
  simp only [run] at g4 r4 e4 c4 o4 cnt4 ⊢
  rw [runWith_append, runWith_cons]
  simp only [List.countP_append]
  have hcnt : ((step (runWith step s n2).1 Event.fallbackTimer).2.countP isGreet) = 1 := by
    simp [step, markReady, startGreetingIfReady, g4, r4, e4, c4, o4,
      hg, hr, hc, ho, hs, isGreet, List.countP_cons, List.countP_nil]
  have hcnt3 :=
    (run_neutral n3 h3 ((step (runWith step s n2).1 Event.fallbackTimer).1)).2.2.2.2.2
  simp only [run] at hcnt3
  omega

theorem aux_fallback_mid (s : State) (hg : s.greeted = false)
    (hr : s.sessionReady = false) (hc : s.openaiConnected = true)
    (ho : s.openaiOpen = true) (sid cid fromN : String) (hsid : sid ≠ "")
    (n1 n2 n3 : List Event)
    (h1 : ∀ e ∈ n1, neutral e = true) (h2 : ∀ e ∈ n2, neutral e = true)
    (h3 : ∀ e ∈ n3, neutral e = true) :
    ((run s (n1 ++ (Event.twStart sid cid fromN
        :: (n2 ++ (Event.fallbackTimer :: n3))))).2.countP isGreet) = 1 := by
  obtain ⟨g2, r2, e2, c2, o2, cnt2⟩ := run_neutral n1 h1 s
  simp only [run] at g2 r2 e2 c2 o2 cnt2 ⊢
  rw [runWith_append, runWith_cons]
  simp only [List.countP_append]
  have hstep : step (runWith step s n1).1 (Event.twStart sid cid fromN)
      = ({ (runWith step s n1).1 with
            streamSid := sid, callSid := cid, fromNumber := fromN }, []) := by
    simp [step, startGreetingIfReady, g2, r2, o2, hg, hr, ho, hsid]
  rw [hstep]
  have htail := aux_fallback_tail
    ({ (runWith step s n1).1 with
        streamSid := sid, callSid := cid, fromNumber := fromN })
    (by simp [g2, hg]) (by simp [r2, hr]) (by simp [c2, hc])
    (by simp [o2, ho]) (by simp [hsid]) n2 n3 h2 h3
  simp only [run] at htail
  simp only [List.countP_nil]
  omega

theorem aux_start_tail (s : State) (hg : s.greeted = false)
    (hr : s.sessionReady = true) (ho : s.openaiOpen = true)
    (sid cid fromN : String) (hsid : sid ≠ "")
    (n2 n3 : List Event)
    (h2 : ∀ e ∈ n2, neutral e = true) (h3 : ∀ e ∈ n3, neutral e = true) :
    ((run s (n2 ++ (Event.twStart sid cid fromN :: n3))).2.countP isGreet) = 1 := by
  obtain ⟨g4, r4, e4, c4, o4, cnt4⟩ := run_neutral n2 h2 s
  simp only [run] at g4 r4 e4 c4 o4 cnt4 ⊢
  rw [runWith_append, runWith_cons]
  simp only [List.countP_append]
  have hcnt : ((step (runWith step s n2).1
      (Event.twStart sid cid fromN)).2.countP isGreet) = 1 := by
    simp [step, startGreetingIfReady, g4, r4, o4, hg, hr, ho, hsid,
      isGreet, List.countP_cons, List.countP_nil]
  have hcnt3 := (run_neutral n3 h3
    ((step (runWith step s n2).1 (Event.twStart sid cid fromN)).1)).2.2.2.2.2
  simp only [run] at hcnt3
  omega

end Part000

/-- Claim C4: in a `part_000` session in which no `session.created` or
`session.updated` message ever arrives, once the 1000 ms fallback timer has
fired and the telephony start event has supplied a nonempty stream id, the
greeting instruction is still sent, and exactly once — for any interleaving
of audio-delta, transcription, error and caller-media events, and for every
arrival order of the three signals in which the socket open precedes its own
fallback timer (the timer is scheduled inside the open handler): start
between open and timer, start before open, and start after the timer. -/
theorem fallback_timer_greets_exactly_once
    (sid cid fromN : String) (hsid : sid ≠ "")
    (n1 n2 n3 : List Part000.Event)
    (h1 : ∀ e ∈ n1, Part000.neutral e = true)
    (h2 : ∀ e ∈ n2, Part000.neutral e = true)
    (h3 : ∀ e ∈ n3, Part000.neutral e = true) :
    ((Part000.run Part000.init
        ([Part000.Event.oaOpen] ++ n1 ++ [Part000.Event.twStart sid cid fromN]
          ++ n2 ++ [Part000.Event.fallbackTimer] ++ n3)).2.countP isGreet) = 1 ∧
    ((Part000.run Part000.init
        ([Part000.Event.twStart sid cid fromN] ++ n1 ++ [Part000.Event.oaOpen]
          ++ n2 ++ [Part000.Event.fallbackTimer] ++ n3)).2.countP isGreet) = 1 ∧
    ((Part000.run Part000.init
        ([Part000.Event.oaOpen] ++ n1 ++ [Part000.Event.fallbackTimer]
          ++ n2 ++ [Part000.Event.twStart sid cid fromN] ++ n3)).2.countP isGreet) = 1 := by
  refine ⟨?_, ?_, ?_⟩
  · have hl : [Part000.Event.oaOpen] ++ n1 ++ [Part000.Event.twStart sid cid fromN]
        ++ n2 ++ [Part000.Event.fallbackTimer] ++ n3
        = Part000.Event.oaOpen :: (n1 ++ (Part000.Event.twStart sid cid fromN
          :: (n2 ++ (Part000.Event.fallbackTimer :: n3)))) := by simp
    rw [hl]
    simp only [Part000.run, runWith_cons, List.countP_append]
    have hmid := Part000.aux_fallback_mid
      (Part000.step Part000.init Part000.Event.oaOpen).1
      (by simp [Part000.step, Part000.init]) (by simp [Part000.step, Part000.init])
      (by simp [Part000.step, Part000.init]) (by simp [Part000.step, Part000.init])
      sid cid fromN hsid n1 n2 n3 h1 h2 h3
    simp only [Part000.run] at hmid
    have hopen : ((Part000.step Part000.init Part000.Event.oaOpen).2.countP isGreet)
        = 0 := by
      simp [Part000.step, Part000.init, isGreet, List.countP_cons, List.countP_nil]
    omega
  · have hl : [Part000.Event.twStart sid cid fromN] ++ n1 ++ [Part000.Event.oaOpen]
        ++ n2 ++ [Part000.Event.fallbackTimer] ++ n3
        = Part000.Event.twStart sid cid fromN :: (n1 ++ (Part000.Event.oaOpen
          :: (n2 ++ (Part000.Event.fallbackTimer :: n3)))) := by simp
    rw [hl]
    simp only [Part000.run, runWith_cons, List.countP_append]
    have hstart : Part000.step Part000.init (Part000.Event.twStart sid cid fromN)
        = (({ streamSid := sid, callSid := cid, fromNumber := fromN }
            : Part000.State), []) := by
      simp [Part000.step, Part000.init, Part000.startGreetingIfReady, hsid]
    rw [hstart]
    obtain ⟨g2, r2, e2, c2, o2, cnt2⟩ := Part000.run_neutral n1 h1
      ({ streamSid := sid, callSid := cid, fromNumber := fromN } : Part000.State)
    simp only [Part000.run] at g2 r2 e2 c2 o2 cnt2
    rw [runWith_append, runWith_cons]
    simp only [List.countP_append]
    have hopen : Part000.step (runWith Part000.step
          ({ streamSid := sid, callSid := cid, fromNumber := fromN }
            : Part000.State) n1).1 Part000.Event.oaOpen
        = ({ (runWith Part000.step
              ({ streamSid := sid, callSid := cid, fromNumber := fromN }
                : Part000.State) n1).1
            with openaiConnected := true, openaiOpen := true },
            [Output.sessionUpdate]) := rfl
    rw [hopen]
    have htail := Part000.aux_fallback_tail
      ({ (runWith Part000.step
            ({ streamSid := sid, callSid := cid, fromNumber := fromN }
              : Part000.State) n1).1
          with openaiConnected := true, openaiOpen := true })
      (by simp [g2]) (by simp [r2]) (by simp) (by simp) (by simp [e2, hsid])
      n2 n3 h2 h3
    simp only [Part000.run] at htail
    simp [isGreet, List.countP_cons, List.countP_nil]
    omega
  · have hl : [Part000.Event.oaOpen] ++ n1 ++ [Part000.Event.fallbackTimer]
        ++ n2 ++ [Part000.Event.twStart sid cid fromN] ++ n3
        = Part000.Event.oaOpen :: (n1 ++ (Part000.Event.fallbackTimer
          :: (n2 ++ (Part000.Event.twStart sid cid fromN :: n3)))) := by simp
    rw [hl]
    simp only [Part000.run, runWith_cons, List.countP_append]
    have hs1 : Part000.step Part000.init Part000.Event.oaOpen
        = (({ openaiConnected := true, openaiOpen := true } : Part000.State),
            [Output.sessionUpdate]) := rfl
    rw [hs1]
    obtain ⟨g2, r2, e2, c2, o2, cnt2⟩ := Part000.run_neutral n1 h1
      ({ openaiConnected := true, openaiOpen := true } : Part000.State)
    simp only [Part000.run] at g2 r2 e2 c2 o2 cnt2
    rw [runWith_append, runWith_cons]
    simp only [List.countP_append]
    have htimer : Part000.step (runWith Part000.step
          ({ openaiConnected := true, openaiOpen := true } : Part000.State) n1).1
          Part000.Event.fallbackTimer
        = ({ (runWith Part000.step
              ({ openaiConnected := true, openaiOpen := true } : Part000.State) n1).1
            with sessionReady := true }, []) := by
      simp [Part000.step, Part000.markReady, Part000.startGreetingIfReady,
        g2, r2, e2, c2, o2]
    rw [htimer]
    have htail := Part000.aux_start_tail
      ({ (runWith Part000.step
            ({ openaiConnected := true, openaiOpen := true } : Part000.State) n1).1
          with sessionReady := true })
      (by simp [g2]) rfl (by simp [o2]) sid cid fromN hsid n2 n3 h2 h3
    simp only [Part000.run] at htail
    simp [isGreet, List.countP_cons, List.countP_nil]
    omega

/-- Witness for claim C4: concrete never-ready traces with stream id `SS1`
in all three arrival orders — start between open and timer, start before
open, and start after the timer — each yield exactly one greeting. -/
theorem fallback_timer_greets_exactly_once_witness :
    ((Part000.run Part000.init
        ([Part000.Event.oaOpen] ++ [] ++ [Part000.Event.twStart "SS1" "CA1" ""]
          ++ [] ++ [Part000.Event.fallbackTimer]
          ++ [Part000.Event.twMedia "AAAA"])).2.countP isGreet) = 1 ∧
    ((Part000.run Part000.init
        ([Part000.Event.twStart "SS1" "CA1" ""] ++ [] ++ [Part000.Event.oaOpen]
          ++ [] ++ [Part000.Event.fallbackTimer]
          ++ [Part000.Event.twMedia "AAAA"])).2.countP isGreet) = 1 ∧
    ((Part000.run Part000.init
        ([Part000.Event.oaOpen] ++ [] ++ [Part000.Event.fallbackTimer]
          ++ [] ++ [Part000.Event.twStart "SS1" "CA1" ""]
          ++ [Part000.Event.twMedia "AAAA"])).2.countP isGreet) = 1 :=
  fallback_timer_greets_exactly_once "SS1" "CA1" "" (by decide)
    [] [] [Part000.Event.twMedia "AAAA"]
    (by decide) (by decide) (by decide)

namespace ServerV1

/-- Per-call closure state of the first `server.js` variant: no readiness
gate, just the ids, the transcript and the model-socket state. -/
structure State where
  streamSid : String := ""
  callSid : String := ""
  transcript : String := ""
  openaiOpen : Bool := false
deriving DecidableEq, Repr

/-- Initial closure state. -/
def init : State := {}

/-- Messages arriving on the model WebSocket that this variant inspects. -/
inductive OAMsg where
  | audioDelta (delta : String)
  | transcriptionCompleted (text : String)
deriving DecidableEq, Repr

/-- Incoming asynchronous events of a first-variant session. -/
inductive Event where
  | oaOpen
  | oaMessage (m : OAMsg)
  | oaClose
  | twStart (streamSid callSid : String)
  | twMedia (payload : String)
deriving DecidableEq, Repr

/-- One event-handler dispatch of the first `server.js` variant.  On open it
sends the session configuration and the greeting immediately; audio deltas
are dropped while `streamSid` is empty; a model-socket close closes the
inbound connection; caller media is forwarded only while the model socket is
OPEN. -/
def step (s : State) : Event → State × List Output
  | .oaOpen =>
    ({ s with openaiOpen := true }, [Output.sessionUpdate, Output.greet])
  | .oaMessage (.audioDelta d) =>
    if s.streamSid = "" then (s, [])
    else (s, [Output.mediaToTwilio s.streamSid d])
  | .oaMessage (.transcriptionCompleted t) =>
    ({ s with transcript := s.transcript ++ "\nCLIENTE: " ++ t }, [])
  | .oaClose => ({ s with openaiOpen := false }, [Output.closeTwilio])
  | .twStart sid cid => ({ s with streamSid := sid, callSid := cid }, [])
  | .twMedia payload =>
    if s.openaiOpen then (s, [Output.inputAudioAppend payload]) else (s, [])

/-- Process a whole list of events from a given state. -/
def run : State → List Event → State × List Output := runWith step

end ServerV1

namespace P002A

/-- Per-call closure state of the buffering variant: model audio arriving
before the telephony `start` event is pushed onto `pendingAudio`. -/
structure State where
  streamSid : String := ""
  callSid : String := ""
  fromNumber : String := ""
  pendingAudio : List String := []
deriving DecidableEq, Repr

/-- Initial closure state. -/
def init : State := {}

/-- `sendAudioToTwilio`: buffer the chunk while `streamSid` is unknown,
otherwise forward it tagged with `streamSid`. -/
def sendAudioToTwilio (s : State) (chunk : String) : State × List Output :=
  if s.streamSid = "" then ({ s with pendingAudio := s.pendingAudio ++ [chunk] }, [])
  else (s, [Output.mediaToTwilio s.streamSid chunk])

/-- `flushPendingAudio`: once `streamSid` is known, drain the buffer to the
caller in arrival order. -/
def flushPendingAudio (s : State) : State × List Output :=
  if s.streamSid = "" ∨ s.pendingAudio.isEmpty then (s, [])
  else ({ s with pendingAudio := [] },
    s.pendingAudio.map (Output.mediaToTwilio s.streamSid))

/-- The two events of this variant that move audio toward the caller: a
model audio delta, and the telephony `start` event (which records the ids
and flushes the buffer). -/
inductive Event where
  | oaAudioDelta (delta : String)
  | twStart (streamSid callSid fromNumber : String)
deriving DecidableEq, Repr

/-- One event-handler dispatch of the buffering variant. -/
def step (s : State) : Event → State × List Output
  | .oaAudioDelta d => sendAudioToTwilio s d
  | .twStart sid cid fromN =>
    flushPendingAudio { s with callSid := cid, streamSid := sid, fromNumber := fromN }

/-- Process a whole list of events from a given state. -/
def run : State → List Event → State × List Output := runWith step

theorem step_mediaHasSid (s : State) (e : Event) (o : Output)
    (h : o ∈ (step s e).2) : mediaHasSid o := by
  cases e with
  | oaAudioDelta d =>
    simp only [step, sendAudioToTwilio] at h
    split_ifs at h with h1
    · simp at h
    · simp at h
      simp [h, mediaHasSid, h1]
  | twStart sid cid fromN =>
    simp only [step, flushPendingAudio] at h
    split_ifs at h with h1
    · simp at h
    · push_neg at h1
      simp at h
      obtain ⟨a, ha, rfl⟩ := h
      simp only [mediaHasSid]
      simpa using h1.1

theorem run_mediaHasSid (es : List Event) :
    ∀ (s : State) (o : Output), o ∈ (run s es).2 → mediaHasSid o := by
  induction es with
  | nil => intro s o h; simp [run, runWith_nil] at h
  | cons e rest ih =>
    intro s o h
    simp only [run, runWith_cons, List.mem_append] at h
    rcases h with h | h
    · exact step_mediaHasSid s e o h
    · exact ih (step s e).1 o h

end P002A

/-- Claim C3: no model audio-delta reaches the caller before `streamSid` is
known.  In the dropping variants (`server.js` first variant and `part_000`)
a delta arriving with an empty `streamSid` is discarded with no output and
no state change; in the buffering variant every emitted caller-media frame
carries a nonempty stream id, and the telephony start event with a nonempty
id flushes the whole buffer to the caller in original arrival order. -/
theorem audio_delta_gated_by_stream_sid :
    (∀ (s : ServerV1.State) (d : String), s.streamSid = "" →
      ServerV1.step s (ServerV1.Event.oaMessage (ServerV1.OAMsg.audioDelta d))
        = (s, [])) ∧
    (∀ (s : Part000.State) (d : String), s.streamSid = "" →
      Part000.step s (Part000.Event.oaMessage (Part000.OAMsg.audioDelta d))
        = (s, [])) ∧
    (∀ (es : List P002A.Event) (o : Output),
      o ∈ (P002A.run P002A.init es).2 → mediaHasSid o) ∧
    (∀ (s : P002A.State) (sid cid fromN : String), sid ≠ "" →
      P002A.step s (P002A.Event.twStart sid cid fromN)
        = ({ streamSid := sid, callSid := cid, fromNumber := fromN,
              pendingAudio := [] },
            s.pendingAudio.map (Output.mediaToTwilio sid))) := by
  refine ⟨fun s d h => ?_, fun s d h => ?_,
    fun es o h => P002A.run_mediaHasSid es P002A.init o h,
    fun s sid cid fromN h => ?_⟩
  · simp [ServerV1.step, h]
  · simp [Part000.step, h]
  · simp only [P002A.step, P002A.flushPendingAudio]
    rcases hp : s.pendingAudio with _ | ⟨a, rest⟩ <;>
      simp [h, hp]

/-- Witness for claim C3: a concrete delta in the empty-id state is dropped
by both dropping variants; the concrete buffering trace with a delta before
the start event emits only frames tagged `SS1`; and the start event flushes
a two-chunk buffer in order. -/
theorem audio_delta_gated_by_stream_sid_witness :
    (ServerV1.step ServerV1.init
        (ServerV1.Event.oaMessage (ServerV1.OAMsg.audioDelta "AAAA"))
      = (ServerV1.init, [])) ∧
    (Part000.step Part000.init
        (Part000.Event.oaMessage (Part000.OAMsg.audioDelta "AAAA"))
      = (Part000.init, [])) ∧
    mediaHasSid (Output.mediaToTwilio "SS1" "AAAA") ∧
    (P002A.step { pendingAudio := ["AAAA", "BBBB"] }
        (P002A.Event.twStart "SS1" "CA1" "")
      = ({ streamSid := "SS1", callSid := "CA1", fromNumber := "",
            pendingAudio := [] },
          [Output.mediaToTwilio "SS1" "AAAA", Output.mediaToTwilio "SS1" "BBBB"])) :=
  ⟨audio_delta_gated_by_stream_sid.1 ServerV1.init "AAAA" rfl,
    audio_delta_gated_by_stream_sid.2.1 Part000.init "AAAA" rfl,
    audio_delta_gated_by_stream_sid.2.2.1
      [P002A.Event.oaAudioDelta "AAAA", P002A.Event.twStart "SS1" "CA1" ""]
      (Output.mediaToTwilio "SS1" "AAAA") (by decide),
    audio_delta_gated_by_stream_sid.2.2.2
      { pendingAudio := ["AAAA", "BBBB"] } "SS1" "CA1" "" (by decide)⟩

/-- Claim C9: an inbound caller-media event arriving while the model socket
is not OPEN is silently discarded in both cited variants — the handler
emits nothing, leaves the state unchanged, and the whole remaining run is
as if the event had never occurred (so the frame is never forwarded
later). -/
theorem caller_media_dropped_when_model_not_open :
    (∀ (s : Part000.State) (p : String) (es : List Part000.Event),
      s.openaiOpen = false →
        Part000.step s (Part000.Event.twMedia p) = (s, []) ∧
        Part000.run s (Part000.Event.twMedia p :: es) = Part000.run s es) ∧
    (∀ (s : ServerV1.State) (p : String) (es : List ServerV1.Event),
      s.openaiOpen = false →
        ServerV1.step s (ServerV1.Event.twMedia p) = (s, []) ∧
        ServerV1.run s (ServerV1.Event.twMedia p :: es) = ServerV1.run s es) := by
  constructor
  · intro s p es h
    have hstep : Part000.step s (Part000.Event.twMedia p) = (s, []) := by
      simp [Part000.step, h]
    refine ⟨hstep, ?_⟩
    simp only [Part000.run, runWith_cons, hstep]
    simp
  · intro s p es h
    have hstep : ServerV1.step s (ServerV1.Event.twMedia p) = (s, []) := by
      simp [ServerV1.step, h]
    refine ⟨hstep, ?_⟩
    simp only [ServerV1.run, runWith_cons, hstep]
    simp

/-- Witness for claim C9: in the freshly created sessions (model socket not
yet open) a concrete media frame is dropped and the one-event run equals the
empty run in both variants. -/
theorem caller_media_dropped_when_model_not_open_witness :
    (Part000.step Part000.init (Part000.Event.twMedia "AAAA") = (Part000.init, []) ∧
      Part000.run Part000.init [Part000.Event.twMedia "AAAA"]
        = Part000.run Part000.init []) ∧
    (ServerV1.step ServerV1.init (ServerV1.Event.twMedia "AAAA") = (ServerV1.init, []) ∧
      ServerV1.run ServerV1.init [ServerV1.Event.twMedia "AAAA"]
        = ServerV1.run ServerV1.init []) :=
  ⟨caller_media_dropped_when_model_not_open.1 Part000.init "AAAA" [] rfl,
    caller_media_dropped_when_model_not_open.2 ServerV1.init "AAAA" [] rfl⟩

/-- Counterexample to claim C8 as stated: in the `part_000` variant the
model-socket close handler only logs — a session that opens the model
connection and then loses it emits no close of the inbound connection. -/
theorem model_close_leaves_inbound_open_part000 :
    ((Part000.run Part000.init
        [Part000.Event.oaOpen, Part000.Event.oaClose]).2.countP isCloseTwilio) = 0 := by
  decide

/-- Claim C8, amended: in the first `server.js` variant an unsolicited close
of the model connection proactively closes the inbound connection, but in
the `part_000` variant the close handler only logs and the inbound
connection is left open. -/
theorem model_close_behavior :
    (∀ s : ServerV1.State,
      ServerV1.step s ServerV1.Event.oaClose
        = ({ s with openaiOpen := false }, [Output.closeTwilio])) ∧
    (∀ s : Part000.State,
      Part000.step s Part000.Event.oaClose
        = ({ s with openaiOpen := false }, [])) :=
  ⟨fun _ => rfl, fun _ => rfl⟩

set_option linter.unusedVariables false

theorem data_append (a b : String) : (a ++ b).data = a.data ++ b.data := rfl

theorem ne_empty_append_left (p q : String) (hp : p ≠ "") : p ++ q ≠ "" := by
  intro h
  apply hp
  have hd : p.data ++ q.data = ([] : List Char) := congrArg String.data h
  have hpd : p.data = [] := (List.append_eq_nil.mp hd).1
  exact congrArg String.mk hpd

theorem joinFiltered_four (a b c d : String)
    (ha : a ≠ "") (hb : b ≠ "") (hc : c ≠ "") (hd : d ≠ "") :
    joinFiltered [a, b, c, d] = a ++ "\n" ++ b ++ "\n" ++ c ++ "\n" ++ d := by
  simp [joinFiltered, List.filter_cons, List.filter_nil, bne_iff_ne,
    ha, hb, hc, hd, joinLines, String.append_assoc]

/-- Result of one run of a stop-handler finalization: the SMS bodies passed
to the dispatch call in order, whether the outbound model connection was
closed, and whether the ticket extractor was invoked. -/
structure FinalizeResult where
  smsAttempts : List String
  closedOpenai : Bool
  extractInvoked : Bool
deriving DecidableEq, Repr

namespace ServerV1

/-- `formatSms` of the first `server.js` variant: fixed-order lines with `-`
placeholders, the call-id line dropped when empty. -/
def formatSms (t : Ticket) (callSid : String) : String :=
  joinFiltered [
    "🛠️ AVISO URGENCIA (MARTA)",
    "Servicio: " ++ orDash t.servicio,
    "Nombre: " ++ orDash t.nombre,
    "Tel: " ++ orDash t.telefono,
    "Dirección: " ++ orDash t.direccion,
    "Zona: " ++ orDash t.zona,
    "Urgente: " ++ orDash t.urgente,
    "Acepto nocturno: " ++ orDash t.aceptoNocturno,
    "Avería: " ++ orDash t.averia,
    "Notas: " ++ orDash t.notas,
    if callSid = "" then "" else "CallSid: " ++ callSid]

/-- The raw-transcript fallback message built in the stop handler's catch
block, before the `slice(0, 1500)` truncation. -/
def fallbackBody (callSid transcript : String) : String :=
  joinFiltered [
    "🛠️ AVISO URGENCIA (MARTA) - FALLBACK",
    if callSid = "" then "" else "CallSid: " ++ callSid,
    "Transcripción:",
    if transcript = "" then "(sin transcripción)" else transcript]

/-- `extractTicket` of the first `server.js` variant: the HTTP request is
issued unconditionally (second component), a non-OK response throws, a
response body that is not JSON or whose `output_text` is empty or does not
parse as JSON throws. -/
def extractTicket (transcript : String) (night : Bool) (respOk : Bool)
    (bodyParse : Option RespBody) (ticketParse : Option Ticket) :
    Except String Ticket × Bool :=
  (if !respOk then Except.error "OpenAI extract failed"
   else
     match bodyParse with
     | none => Except.error "Extractor no devolvio JSON"
     | some json =>
       if trimJs json.output_text = "" then
         Except.error "Extractor no devolvio JSON"
       else
         match ticketParse with
         | none => Except.error "Extractor no devolvio JSON"
         | some t => Except.ok t,
    true)

/-- The stop handler of the first `server.js` variant: try
extract-format-send; on any failure attempt exactly one fallback dispatch
with the raw-transcript message truncated to 1500 characters; always close
the model connection in the `finally` block. -/
def finalize (transcript callSid : String) (extractResult : Except String Ticket)
    (primaryOk fallbackOk : Bool) : FinalizeResult :=
  match extractResult with
  | .error _ =>
    { smsAttempts := [sliceTo (fallbackBody callSid transcript) 1500],
      closedOpenai := true, extractInvoked := true }
  | .ok t =>
    if primaryOk then
      { smsAttempts := [formatSms t callSid],
        closedOpenai := true, extractInvoked := true }
    else
      { smsAttempts := [formatSms t callSid,
          sliceTo (fallbackBody callSid transcript) 1500],
        closedOpenai := true, extractInvoked := true }

end ServerV1

namespace Part000

/-- `buildSmsFromTranscript` of `part_000`: an empty or whitespace-only
transcript short-circuits to a fixed no-transcription message without
invoking the extractor (second component false); otherwise the extraction
result is formatted, extraction errors propagating. -/
def buildSmsFromTranscript (transcript callSid fromNumber : String)
    (extractResult : Except String Ticket) : Except String String × Bool :=
  if transcript = "" ∨ trimJs transcript = "" then
    (Except.ok (joinFiltered [
      "🛠️ AVISO URGENCIA (MARTA)",
      "Tel (origen): " ++ orDash fromNumber,
      "Notas: Sin transcripción (posible fallo de audio).",
      if callSid = "" then "" else "CallSid: " ++ callSid]), false)
  else
    match extractResult with
    | .error e => (Except.error e, true)
    | .ok x =>
      (Except.ok (joinFiltered [
        "🛠️ AVISO URGENCIA (MARTA)",
        "Servicio: " ++ orDash x.servicio,
        "Nombre: " ++ orDash x.nombre,
        "Tel: " ++ (if x.telefono = ""
          then (if fromNumber = "" then "-" else fromNumber) else x.telefono),
        "Dirección: " ++ orDash x.direccion,
        "Zona: " ++ orDash x.zona,
        "Urgente: " ++ orDash x.urgente,
        "Acepto nocturno: " ++ orDash x.aceptoNocturno,
        "Avería: " ++ orDash x.averia,
        "Notas: " ++ orDash x.notas,
        if callSid = "" then "" else "CallSid: " ++ callSid]), true)

/-- The fallback message of the `part_000` stop handler's catch block: a
template literal carrying the call id (or `-`) and the full transcript,
with no truncation. -/
def fallbackBody (callSid transcript : String) : String :=
  "🛠️ AVISO URGENCIA (MARTA)\nNotas: Error generando parte.\nCallSid: "
    ++ orDash callSid ++ "\nTranscripción:\n"
    ++ (if transcript = "" then "(sin transcripción)" else transcript)

/-- The stop handler of `part_000`: build and send the SMS; on any failure
attempt exactly one fallback dispatch with the untruncated raw-transcript
message; always close the model connection in the `finally` block. -/
def finalize (transcript callSid fromNumber : String)
    (extractResult : Except String Ticket) (primaryOk fallbackOk : Bool) :
    FinalizeResult :=
  match buildSmsFromTranscript transcript callSid fromNumber extractResult with
  | (.error _, inv) =>
    { smsAttempts := [fallbackBody callSid transcript],
      closedOpenai := true, extractInvoked := inv }
  | (.ok body, inv) =>
    if primaryOk then
      { smsAttempts := [body], closedOpenai := true, extractInvoked := inv }
    else
      { smsAttempts := [body, fallbackBody callSid transcript],
        closedOpenai := true, extractInvoked := inv }

end Part000

namespace Part3

/-- `extractTicket` of the `part_003` variant: an empty or whitespace-only
transcript short-circuits to a fixed no-transcription ticket without
issuing the HTTP request (second component false); otherwise a non-OK
response, a non-JSON body, an empty `output_text` or an unparseable
`output_text` each throw. -/
def extractTicket (transcript : String) (night : Bool) (respOk : Bool)
    (bodyParse : Option RespBody) (ticketParse : Option Ticket) :
    Except String Ticket × Bool :=
  if transcript = "" ∨ trimJs transcript = "" then
    (Except.ok { newTicket with
      aceptoNocturno := if night then "no" else "n-a",
      notas := "Sin transcripción (posible fallo de audio)" }, false)
  else
    (if !respOk then Except.error "OpenAI extract failed"
     else
       match bodyParse with
       | none => Except.error "OpenAI extract: respuesta no JSON"
       | some json =>
         if trimJs json.output_text = "" then
           Except.error "OpenAI extract: output_text vacío"
         else
           match ticketParse with
           | none => Except.error "OpenAI extract: output_text no parseable"
           | some t => Except.ok t,
      true)

end Part3

namespace ServerV3

/-- The ticket the third `server.js` variant substitutes when the generated
text does not parse as JSON: all data fields empty, a warning in `notas`
with the last 1200 transcript characters. -/
def fallbackTicket (transcript : String) (night : Bool) : Ticket :=
  { nombre := "", telefono := "", direccion := "", zona := "", servicio := "",
    averia := "", urgente := "",
    aceptoNocturno := if night then "no" else "n-a",
    notas := "⚠️ No se pudo parsear JSON. Revisa transcripción.\n"
      ++ sliceLast transcript 1200 }

/-- `extractTicket` of the third `server.js` variant: a non-OK response or a
non-JSON response body throws, but a JSON-parse failure of the generated
`output_text` is caught and replaced by `fallbackTicket`. -/
def extractTicket (transcript : String) (night : Bool) (respOk : Bool)
    (bodyParse : Option RespBody) (ticketParse : Option Ticket) :
    Except String Ticket :=
  if !respOk then Except.error "OpenAI extract failed"
  else
    match bodyParse with
    | none => Except.error "OpenAI extract: respuesta no JSON"
    | some json =>
      match ticketParse with
      | none => Except.ok (fallbackTicket transcript night)
      | some t => Except.ok t

end ServerV3

namespace P002B

/-- The basic ticket the json-schema variant substitutes when the candidate
text does not parse as JSON. -/
def fallbackTicket (transcript : String) (night : Bool) : Ticket :=
  { nombre := "", telefono := "", direccion := "", zona := "", servicio := "",
    averia := "", urgente := "",
    aceptoNocturno := if night then "no" else "n-a",
    notas := if transcript = ""
      then "Sin transcripción (posible fallo de audio)."
      else "No se pudo parsear JSON, revisar conversación." }

/-- `extractTicket` of the json-schema variant: a non-OK response or a
non-JSON response body throws, but a parse failure of the candidate text is
replaced by `fallbackTicket`. -/
def extractTicket (transcript : String) (night : Bool) (respOk : Bool)
    (bodyParse : Option RespBody) (ticketParse : Option Ticket) :
    Except String Ticket :=
  if !respOk then Except.error "OpenAI extract failed"
  else
    match bodyParse with
    | none => Except.error "OpenAI extract: respuesta no JSON"
    | some json =>
      match ticketParse with
      | none => Except.ok (fallbackTicket transcript night)
      | some t => Except.ok t

end P002B

/-- A concrete 2000-character transcript, used as an input to the
finalization fallback. -/
def t2000 : String := ⟨List.replicate 2000 'a'⟩

/-- Counterexample to claim C5 as stated: with a 2000-character transcript
and a failing extraction, the first `server.js` variant attempts exactly one
fallback dispatch, but its body is the fallback message truncated to 1500
characters and the raw transcript does not occur in it — the fallback does
not carry the complete raw transcript. -/
theorem long_transcript_fallback_incomplete :
    (ServerV1.finalize t2000 "CA1" (Except.error "OpenAI extract failed: 500")
        true true).smsAttempts
      = [sliceTo (ServerV1.fallbackBody "CA1" t2000) 1500] ∧
    ¬ (t2000.data <:+: (sliceTo (ServerV1.fallbackBody "CA1" t2000) 1500).data) := by
  constructor
  · rfl
  · intro h
    have hle := h.length_le
    have h1 : t2000.data.length = 2000 := List.length_replicate 2000 'a'
    have h2 : ((sliceTo (ServerV1.fallbackBody "CA1" t2000) 1500).data).length ≤ 1500 := by
      simpa [sliceTo, List.length_take] using
        Nat.min_le_left 1500 (ServerV1.fallbackBody "CA1" t2000).data.length
    omega

/-- Claim C5, amended: under every combination of extraction and dispatch
failures both cited stop handlers still close the outbound model
connection, and a failed finalization attempts exactly one fallback
dispatch whose body carries the call id and the raw transcript — except
that the `server.js` variant dispatches that body truncated to its first
1500 characters, so a transcript long enough to push the message past 1500
characters is carried only partially there. -/
theorem finalize_fallback_and_close :
    (∀ (t c : String) (er : Except String Ticket) (p f : Bool),
      (ServerV1.finalize t c er p f).closedOpenai = true) ∧
    (∀ (t c fn : String) (er : Except String Ticket) (p f : Bool),
      (Part000.finalize t c fn er p f).closedOpenai = true) ∧
    (∀ (t c e : String) (p f : Bool),
      (ServerV1.finalize t c (Except.error e) p f).smsAttempts
        = [sliceTo (ServerV1.fallbackBody c t) 1500]) ∧
    (∀ (t c : String) (x : Ticket) (f : Bool),
      (ServerV1.finalize t c (Except.ok x) false f).smsAttempts
        = [ServerV1.formatSms x c, sliceTo (ServerV1.fallbackBody c t) 1500]) ∧
    (∀ (t c fn e : String) (p f : Bool), ¬(t = "" ∨ trimJs t = "") →
      (Part000.finalize t c fn (Except.error e) p f).smsAttempts
        = [Part000.fallbackBody c t]) ∧
    (∀ (t c fn : String) (er : Except String Ticket) (f : Bool),
      (Part000.finalize t c fn er false f).smsAttempts.getLast?
        = some (Part000.fallbackBody c t)) ∧
    (∀ (t c : String), t ≠ "" → c ≠ "" →
      t.data <:+: (ServerV1.fallbackBody c t).data ∧
      c.data <:+: (ServerV1.fallbackBody c t).data) ∧
    (∀ (t c : String), t ≠ "" →
      t.data <:+: (Part000.fallbackBody c t).data ∧
      (orDash c).data <:+: (Part000.fallbackBody c t).data) := by
  refine ⟨?_, ?_, ?_, ?_, ?_, ?_, ?_, ?_⟩
  · intro t c er p f
    cases er with
    | error e => rfl
    | ok x => cases p <;> rfl
  · intro t c fn er p f
    rcases hb : Part000.buildSmsFromTranscript t c fn er with ⟨exc, inv⟩
    cases exc <;> cases p <;> simp [Part000.finalize, hb]
  · intro t c e p f; rfl
  · intro t c x f; rfl
  · intro t c fn e p f h
    simp [Part000.finalize, Part000.buildSmsFromTranscript, if_neg h]
  · intro t c fn er f
    rcases hb : Part000.buildSmsFromTranscript t c fn er with ⟨exc, inv⟩
    cases exc <;> simp [Part000.finalize, hb]
  · intro t c ht hc
    have hb : ServerV1.fallbackBody c t
        = "🛠️ AVISO URGENCIA (MARTA) - FALLBACK" ++ "\n" ++ ("CallSid: " ++ c)
          ++ "\n" ++ "Transcripción:" ++ "\n" ++ t := by
      unfold ServerV1.fallbackBody
      rw [if_neg hc, if_neg ht]
      exact joinFiltered_four _ _ _ _ (by decide)
        (ne_empty_append_left "CallSid: " c (by decide)) (by decide) ht
    constructor
    · exact ⟨("🛠️ AVISO URGENCIA (MARTA) - FALLBACK" ++ "\n" ++ ("CallSid: " ++ c)
          ++ "\n" ++ "Transcripción:" ++ "\n").data, [],
        by rw [hb]; simp [data_append, List.append_assoc]⟩
    · exact ⟨("🛠️ AVISO URGENCIA (MARTA) - FALLBACK" ++ "\n" ++ "CallSid: ").data,
        ("\n" ++ "Transcripción:" ++ "\n" ++ t).data,
        by rw [hb]; simp [data_append, List.append_assoc]⟩
  · intro t c ht
    constructor
    · refine ⟨("🛠️ AVISO URGENCIA (MARTA)\nNotas: Error generando parte.\nCallSid: "
          ++ orDash c ++ "\nTranscripción:\n").data, [], ?_⟩
      unfold Part000.fallbackBody
      rw [if_neg ht]
      simp [data_append, List.append_assoc]
    · refine ⟨("🛠️ AVISO URGENCIA (MARTA)\nNotas: Error generando parte.\nCallSid: "
          : String).data,
        ("\nTranscripción:\n" ++ (if t = "" then "(sin transcripción)" else t)).data, ?_⟩
      unfold Part000.fallbackBody
      simp [data_append, List.append_assoc]

/-- Witness for amended claim C5 at concrete inputs: extraction failure on
transcript `hola` with call id `CA1` closes both variants' model
connections, attempts exactly one fallback in each, and the transcript
occurs in both fallback bodies. -/
theorem finalize_fallback_and_close_witness :
    (ServerV1.finalize "hola" "CA1" (Except.error "boom") true false).closedOpenai
      = true ∧
    (Part000.finalize "hola" "CA1" "+34600111222"
        (Except.error "boom") true false).closedOpenai = true ∧
    (ServerV1.finalize "hola" "CA1" (Except.error "boom") true false).smsAttempts
      = [sliceTo (ServerV1.fallbackBody "CA1" "hola") 1500] ∧
    (Part000.finalize "hola" "CA1" "+34600111222"
        (Except.error "boom") true false).smsAttempts
      = [Part000.fallbackBody "CA1" "hola"] ∧
    ("hola" : String).data <:+: (ServerV1.fallbackBody "CA1" "hola").data ∧
    ("hola" : String).data <:+: (Part000.fallbackBody "CA1" "hola").data := by
  obtain ⟨h1, h2, h3, h4, h5, h6, h7, h8⟩ := finalize_fallback_and_close
  exact ⟨h1 "hola" "CA1" (Except.error "boom") true false,
    h2 "hola" "CA1" "+34600111222" (Except.error "boom") true false,
    h3 "hola" "CA1" "boom" true false,
    h5 "hola" "CA1" "+34600111222" "boom" true false (by decide),
    (h7 "hola" "CA1" (by decide) (by decide)).1,
    (h8 "hola" "CA1" (by decide)).1⟩

/-- Claim C10: the dispatched fallback SMS of the first `server.js` variant
is the raw-transcript fallback message truncated to its first 1500
characters; whenever the formatted message exceeds 1500 characters the
dispatched body is a proper prefix of it (of length exactly 1500), and a
transcript longer than 1500 characters cannot occur in the dispatched
body. -/
theorem fallback_sms_truncated_to_1500 :
    (∀ (t c e : String) (p f : Bool),
      (ServerV1.finalize t c (Except.error e) p f).smsAttempts
        = [sliceTo (ServerV1.fallbackBody c t) 1500]) ∧
    (∀ (t c : String), 1500 < (ServerV1.fallbackBody c t).length →
      ((sliceTo (ServerV1.fallbackBody c t) 1500).data
          <+: (ServerV1.fallbackBody c t).data ∧
        sliceTo (ServerV1.fallbackBody c t) 1500 ≠ ServerV1.fallbackBody c t ∧
        (sliceTo (ServerV1.fallbackBody c t) 1500).length = 1500)) ∧
    (∀ (t c : String), 1500 < t.length →
      ¬ (t.data <:+: (sliceTo (ServerV1.fallbackBody c t) 1500).data)) := by
  refine ⟨fun t c e p f => rfl, fun t c h => ?_, fun t c h hin => ?_⟩
  · have hlen : (sliceTo (ServerV1.fallbackBody c t) 1500).data.length = 1500 := by
      simp only [sliceTo, List.length_take]
      exact Nat.min_eq_left (le_of_lt h)
    refine ⟨⟨(ServerV1.fallbackBody c t).data.drop 1500,
      List.take_append_drop 1500 _⟩, ?_, hlen⟩
    intro heq
    have hcong : (sliceTo (ServerV1.fallbackBody c t) 1500).data.length
        = (ServerV1.fallbackBody c t).data.length :=
      congrArg (fun s : String => s.data.length) heq
    rw [hlen] at hcong
    have hlen2 : (ServerV1.fallbackBody c t).length
        = (ServerV1.fallbackBody c t).data.length := rfl
    omega
  · have hle := hin.length_le
    have h2 : ((sliceTo (ServerV1.fallbackBody c t) 1500).data).length ≤ 1500 := by
      simpa [sliceTo, List.length_take] using
        Nat.min_le_left 1500 (ServerV1.fallbackBody c t).data.length
    have h3 : t.length = t.data.length := rfl
    omega

/-- Witness for claim C10 at the concrete 2000-character transcript: the
single fallback attempt is the truncated body, that body is a proper prefix
of length 1500 of the full message, and the transcript does not occur in
it. -/
theorem fallback_sms_truncated_to_1500_witness :
    ((ServerV1.finalize t2000 "CA1" (Except.error "boom") true true).smsAttempts
      = [sliceTo (ServerV1.fallbackBody "CA1" t2000) 1500]) ∧
    ((sliceTo (ServerV1.fallbackBody "CA1" t2000) 1500).data
        <+: (ServerV1.fallbackBody "CA1" t2000).data ∧
      sliceTo (ServerV1.fallbackBody "CA1" t2000) 1500
        ≠ ServerV1.fallbackBody "CA1" t2000 ∧
      (sliceTo (ServerV1.fallbackBody "CA1" t2000) 1500).length = 1500) ∧
    ¬ (t2000.data <:+: (sliceTo (ServerV1.fallbackBody "CA1" t2000) 1500).data) := by
  obtain ⟨h1, h2, h3⟩ := fallback_sms_truncated_to_1500
  have ht : t2000 ≠ "" := by
    intro h
    have hz : t2000.data.length = 0 := by rw [h]; rfl
    have h2000 : t2000.data.length = 2000 := List.length_replicate 2000 'a'
    omega
  have hb : ServerV1.fallbackBody "CA1" t2000
      = "🛠️ AVISO URGENCIA (MARTA) - FALLBACK" ++ "\n" ++ ("CallSid: " ++ "CA1")
        ++ "\n" ++ "Transcripción:" ++ "\n" ++ t2000 := by
    unfold ServerV1.fallbackBody
    rw [if_neg (by decide : ¬("CA1" : String) = ""), if_neg ht]
    exact joinFiltered_four _ _ _ _ (by decide)
      (ne_empty_append_left "CallSid: " "CA1" (by decide)) (by decide) ht
  have hlen : 1500 < (ServerV1.fallbackBody "CA1" t2000).length := by
    have hdl : (ServerV1.fallbackBody "CA1" t2000).data
        = ("🛠️ AVISO URGENCIA (MARTA) - FALLBACK" ++ "\n" ++ ("CallSid: " ++ "CA1")
            ++ "\n" ++ "Transcripción:" ++ "\n").data ++ t2000.data := by
      rw [hb]; simp [data_append, List.append_assoc]
    show 1500 < (ServerV1.fallbackBody "CA1" t2000).data.length
    rw [hdl, List.length_append]
    have h2000 : t2000.data.length = 2000 := List.length_replicate 2000 'a'
    omega
  refine ⟨h1 t2000 "CA1" "boom" true true, h2 t2000 "CA1" hlen, h3 t2000 "CA1" ?_⟩
  show 1500 < t2000.data.length
  have h2000 : t2000.data.length = 2000 := List.length_replicate 2000 'a'
  omega

/-- Counterexample to claim C6 as stated: in the third `server.js` variant a
JSON-parse failure of the generated text is not thrown — the extractor
returns a successful, empty-but-valid ticket (all data fields empty, only a
warning note). -/
theorem parse_failure_returns_ok_ticket :
    ServerV3.extractTicket "hola" false true (some { output_text := "no es json" }) none
      = Except.ok (ServerV3.fallbackTicket "hola" false) ∧
    (ServerV3.fallbackTicket "hola" false).nombre = "" ∧
    (ServerV3.fallbackTicket "hola" false).telefono = "" ∧
    (ServerV3.fallbackTicket "hola" false).direccion = "" ∧
    (ServerV3.fallbackTicket "hola" false).servicio = "" ∧
    (ServerV3.fallbackTicket "hola" false).averia = "" :=
  ⟨rfl, rfl, rfl, rfl, rfl, rfl⟩

/-- Claim C6, amended: in the `part_003` variant every upstream HTTP
failure and every parse failure is signaled as an extraction error; but in
the third `server.js` variant and the json-schema variant only HTTP
failures (and non-JSON response bodies) throw, while a parse failure of the
generated text is silently replaced by a fallback ticket with empty data
fields and a warning note. -/
theorem extraction_error_signaling :
    (∀ (t : String) (night respOk : Bool) (bp : Option RespBody) (tp : Option Ticket),
      ¬(t = "" ∨ trimJs t = "") →
      (respOk = false ∨ bp = none ∨ tp = none) →
      (Part3.extractTicket t night respOk bp tp).1.isOk = false) ∧
    (∀ (t : String) (night : Bool) (bp : Option RespBody) (tp : Option Ticket),
      (ServerV3.extractTicket t night false bp tp).isOk = false) ∧
    (∀ (t : String) (night : Bool) (bp : RespBody),
      ServerV3.extractTicket t night true (some bp) none
        = Except.ok (ServerV3.fallbackTicket t night)) ∧
    (∀ (t : String) (night : Bool) (bp : Option RespBody) (tp : Option Ticket),
      (P002B.extractTicket t night false bp tp).isOk = false) ∧
    (∀ (t : String) (night : Bool) (bp : RespBody),
      P002B.extractTicket t night true (some bp) none
        = Except.ok (P002B.fallbackTicket t night)) := by
  refine ⟨?_, ?_, fun t night bp => rfl, ?_, fun t night bp => rfl⟩
  · intro t night respOk bp tp hne hfail
    simp only [Part3.extractTicket, if_neg hne]
    rcases hfail with h | h | h
    · subst h; simp [Except.isOk, Except.toBool]
    · subst h; cases respOk <;> simp [Except.isOk, Except.toBool]
    · subst h
      cases respOk
      · simp [Except.isOk, Except.toBool]
      · cases bp with
        | none => simp [Except.isOk, Except.toBool]
        | some j =>
          by_cases hj : trimJs j.output_text = "" <;> simp [hj, Except.isOk, Except.toBool]
  · intro t night bp tp
    simp [ServerV3.extractTicket, Except.isOk, Except.toBool]
  · intro t night bp tp
    simp [P002B.extractTicket, Except.isOk, Except.toBool]

/-- Witness for amended claim C6 at concrete inputs: HTTP failure yields an
error in all three extractors, and a concrete parse failure yields the
fallback ticket in the two lenient variants. -/
theorem extraction_error_signaling_witness :
    (Part3.extractTicket "hola" false false none none).1.isOk = false ∧
    (ServerV3.extractTicket "hola" false false none none).isOk = false ∧
    (ServerV3.extractTicket "hola" false true (some { output_text := "x" }) none
      = Except.ok (ServerV3.fallbackTicket "hola" false)) ∧
    (P002B.extractTicket "hola" false false none none).isOk = false ∧
    (P002B.extractTicket "hola" false true (some { output_text := "x" }) none
      = Except.ok (P002B.fallbackTicket "hola" false)) := by
  obtain ⟨h1, h2, h3, h4, h5⟩ := extraction_error_signaling
  exact ⟨h1 "hola" false false none none (by decide) (Or.inl rfl),
    h2 "hola" false none none, h3 "hola" false { output_text := "x" },
    h4 "hola" false none none, h5 "hola" false { output_text := "x" }⟩

/-- Counterexample to claim C7 as stated: in the first `server.js` variant
the stop handler invokes the extractor unconditionally — on an empty
transcript the extractor is still invoked and it still issues the HTTP
request. -/
theorem empty_transcript_still_calls_extraction :
    (ServerV1.finalize "" "CA1" (Except.ok newTicket) true true).extractInvoked
      = true ∧
    (ServerV1.extractTicket "" false true (some { output_text := "" }) none).2
      = true :=
  ⟨rfl, rfl⟩

/-- Claim C7, amended: in the `part_000` variant an empty or whitespace-only
transcript short-circuits `buildSmsFromTranscript` to a fixed
no-transcription message without invoking the extractor, and in the
`part_003` variant the extractor short-circuits to a fixed no-transcription
ticket without issuing the HTTP request; but in the first `server.js`
variant the stop handler invokes the extractor unconditionally and the
extractor always issues the HTTP request, even for an empty transcript. -/
theorem empty_transcript_short_circuit :
    (∀ (t cid fromN : String) (er : Except String Ticket),
      (t = "" ∨ trimJs t = "") →
        Part000.buildSmsFromTranscript t cid fromN er
          = (Except.ok (joinFiltered [
              "🛠️ AVISO URGENCIA (MARTA)",
              "Tel (origen): " ++ orDash fromN,
              "Notas: Sin transcripción (posible fallo de audio).",
              if cid = "" then "" else "CallSid: " ++ cid]), false)) ∧
    (∀ (t : String) (night respOk : Bool) (bp : Option RespBody) (tp : Option Ticket),
      (t = "" ∨ trimJs t = "") →
        Part3.extractTicket t night respOk bp tp
          = (Except.ok { newTicket with
              aceptoNocturno := if night then "no" else "n-a",
              notas := "Sin transcripción (posible fallo de audio)" }, false)) ∧
    (∀ (t cid : String) (er : Except String Ticket) (p f : Bool),
      (ServerV1.finalize t cid er p f).extractInvoked = true) ∧
    (∀ (t : String) (night respOk : Bool) (bp : Option RespBody) (tp : Option Ticket),
      (ServerV1.extractTicket t night respOk bp tp).2 = true) := by
  refine ⟨?_, ?_, ?_, fun t night respOk bp tp => rfl⟩
  · intro t cid fromN er h
    simp [Part000.buildSmsFromTranscript, if_pos h]
  · intro t night respOk bp tp h
    simp [Part3.extractTicket, if_pos h]
  · intro t cid er p f
    cases er with
    | error e => rfl
    | ok x => cases p <;> rfl

/-- Witness for amended claim C7 at concrete inputs: a whitespace-only
transcript short-circuits the `part_000` and `part_003` paths, while the
first `server.js` variant still invokes extraction on the empty
transcript. -/
theorem empty_transcript_short_circuit_witness :
    (Part000.buildSmsFromTranscript "  " "CA1" "+34600111222" (Except.error "never")
      = (Except.ok (joinFiltered [
          "🛠️ AVISO URGENCIA (MARTA)",
          "Tel (origen): " ++ orDash "+34600111222",
          "Notas: Sin transcripción (posible fallo de audio).",
          if ("CA1" : String) = "" then "" else "CallSid: " ++ "CA1"]), false)) ∧
    (Part3.extractTicket "  " true false none none
      = (Except.ok { newTicket with
          aceptoNocturno := "no",
          notas := "Sin transcripción (posible fallo de audio)" }, false)) ∧
    (ServerV1.finalize "" "CA1" (Except.error "boom") true true).extractInvoked
      = true ∧
    (ServerV1.extractTicket "" false true none none).2 = true := by
  obtain ⟨h1, h2, h3, h4⟩ := empty_transcript_short_circuit
  refine ⟨h1 "  " "CA1" "+34600111222" (Except.error "never") (Or.inr (by decide)),
    ?_, h3 "" "CA1" (Except.error "boom") true true, h4 "" false true none none⟩
  have h := h2 "  " true false none none (Or.inr (by decide))
  simpa using h
